import Mathlib

/-!
# Verification of the silverbullet-treeview panel-lifecycle controller

Shallow embedding of `src/treeview.ts`: the position resolver
(`getAdaptivePosition`), the visibility state (`currentPosition` plus the
persisted enabled preference), and the lifecycle operations `toggleTree`,
`hideTree`, `showTreeIfEnabled`, `showTree`.

The host collaborators (`asset.readAsset`, `editor.showPanel`,
`editor.hidePanel`, `system.getEnv`, `getPageTree`, `getPlugConfig`,
`getCustomStyles`, `isTreeViewEnabled`, `setTreeViewEnabled`) are external:
they are modelled by an `Env` record that fixes, for each collaborator, the
value or error its promise settles with.  Each operation is embedded as an
explicit state-passing function returning the settled result
(`Except Err Unit`), the final in-memory/persisted state (`St`), and the
trace of observable host invocations (`List Event`).  A `Promise.all` batch
of asset reads is recorded as a single `Event.parReadAssets` trace entry,
reflecting that its reads are issued together as one fan-out/fan-in batch;
each `await` on a single collaborator is recorded as its own trace entry in
program order.
-/

/-- Errors carried by rejected promises; an opaque payload, modelled as a
string. -/
abbrev Err := String

/-- Modelled from the spec: `Position` is imported from `config.ts`, which is
not part of the excerpt.  The spec describes it as a fixed enumeration of
valid panel placements, e.g. `"left" | "right" | "modal"`, with `"modal"`
the fallback for narrow viewports. -/
inductive Position where
  | left
  | right
  | modal
deriving DecidableEq, Repr

/-- Modelled from the spec: `TreeViewConfig` comes from `config.ts`, which is
not part of the excerpt.  Fields are the ones `treeview.ts` reads:
`position`, `autoMobileMode`, `mobileThreshold` (a non-negative pixel
width), `size`, and `dragAndDrop.enabled`. -/
structure TreeViewConfig where
  position : Position
  autoMobileMode : Bool
  mobileThreshold : Nat
  size : Nat
  dragAndDropEnabled : Bool
deriving DecidableEq, Repr

/-- `getAdaptivePosition` from `src/treeview.ts` lines 22-32.  The ambient
`window` object is modelled as `Option Nat`: `none` when
`typeof window === "undefined"` (headless/server context), `some w` when a
viewport of inner width `w` is available. -/
def getAdaptivePosition (config : TreeViewConfig) (window : Option Nat) :
    Position :=
  if !config.autoMobileMode then
    config.position
  else
    let isMobile :=
      match window with
      | none => false
      | some w => w ≤ config.mobileThreshold
    if isMobile then .modal else config.position

/-- C8: with `autoMobileMode = false` the resolver returns `config.position`
unconditionally, whatever the viewport (present with any width, or absent
entirely). -/
theorem getAdaptivePosition_of_not_autoMobileMode
    (config : TreeViewConfig) (window : Option Nat)
    (h : config.autoMobileMode = false) :
    getAdaptivePosition config window = config.position := by
  simp [getAdaptivePosition, h]

/-- Witness for C8 at a concrete configuration and viewport. -/
theorem getAdaptivePosition_of_not_autoMobileMode_witness :
    ({ position := .left, autoMobileMode := false, mobileThreshold := 800,
       size := 300, dragAndDropEnabled := true } : TreeViewConfig).autoMobileMode
        = false
    ∧ getAdaptivePosition
        { position := .left, autoMobileMode := false, mobileThreshold := 800,
          size := 300, dragAndDropEnabled := true } (some 500) = .left :=
  ⟨rfl,
   getAdaptivePosition_of_not_autoMobileMode
     { position := .left, autoMobileMode := false, mobileThreshold := 800,
       size := 300, dragAndDropEnabled := true } (some 500) rfl⟩

/-- C4 counterexample: with `autoMobileMode = true`, `position = "modal"`
and viewport width 200 strictly above the threshold 100, the resolver
returns `"modal"` even though `w ≤ mobileThreshold` fails, so
"returns modal iff w ≤ threshold" is false as stated. -/
theorem getAdaptivePosition_modal_iff_fails :
    getAdaptivePosition
      { position := .modal, autoMobileMode := true, mobileThreshold := 100,
        size := 300, dragAndDropEnabled := true } (some 200) = .modal
    ∧ ¬ (200 ≤ 100) := by
  constructor
  · rfl
  · decide

/-- C4 (amended): with `autoMobileMode = true`, in a visual context the
resolver returns `"modal"` when `w ≤ mobileThreshold` and `config.position`
otherwise — hence "modal iff `w ≤ mobileThreshold`" holds whenever
`config.position ≠ modal`; in a headless context it returns
`config.position` unconditionally. -/
theorem getAdaptivePosition_of_autoMobileMode
    (config : TreeViewConfig) (w : Nat)
    (h : config.autoMobileMode = true) :
    (getAdaptivePosition config (some w)
        = if w ≤ config.mobileThreshold then Position.modal
          else config.position)
    ∧ (config.position ≠ Position.modal →
        (getAdaptivePosition config (some w) = Position.modal
          ↔ w ≤ config.mobileThreshold))
    ∧ getAdaptivePosition config none = config.position := by
  refine ⟨?_, ?_, ?_⟩
  · simp only [getAdaptivePosition, h]
    by_cases hw : w ≤ config.mobileThreshold <;> simp [hw]
  · intro hpos
    simp only [getAdaptivePosition, h]
    by_cases hw : w ≤ config.mobileThreshold <;> simp [hw, hpos]
  · simp [getAdaptivePosition, h]

/-- Witness for the amended C4 at a concrete configuration and width. -/
theorem getAdaptivePosition_of_autoMobileMode_witness :
    ({ position := .left, autoMobileMode := true, mobileThreshold := 800,
       size := 300, dragAndDropEnabled := true } : TreeViewConfig).autoMobileMode
        = true
    ∧ (getAdaptivePosition
          { position := .left, autoMobileMode := true, mobileThreshold := 800,
            size := 300, dragAndDropEnabled := true } (some 500)
        = if 500 ≤ 800 then Position.modal else Position.left)
    ∧ (Position.left ≠ Position.modal →
        (getAdaptivePosition
            { position := .left, autoMobileMode := true, mobileThreshold := 800,
              size := 300, dragAndDropEnabled := true } (some 500)
          = Position.modal ↔ 500 ≤ 800))
    ∧ getAdaptivePosition
        { position := .left, autoMobileMode := true, mobileThreshold := 800,
          size := 300, dragAndDropEnabled := true } none = Position.left :=
  ⟨rfl,
   getAdaptivePosition_of_autoMobileMode
     { position := .left, autoMobileMode := true, mobileThreshold := 800,
       size := 300, dragAndDropEnabled := true } 500 rfl⟩

/-- Observable host invocations issued by the lifecycle operations, in
program order.  `parReadAssets` is a single fan-out/fan-in `Promise.all`
batch of `asset.readAsset` calls; the other fetches each correspond to one
`await` on the respective collaborator.  `logError` records a
`console.error` call with its constant message argument. -/
inductive Event where
  | parReadAssets (paths : List String)
  | fetchPageTree
  | fetchCustomStyles
  | showPanel (pos : Position)
  | hidePanel (pos : Position)
  | setEnabled (b : Bool)
  | logError (msg : String)
deriving DecidableEq, Repr

/-- The mutable state touched by the controller: the process-wide
`currentPosition` slot (`Position | undefined`, `src/treeview.ts` line 17)
and the persisted enabled preference behind
`isTreeViewEnabled`/`setTreeViewEnabled`. -/
structure St where
  currentPosition : Option Position
  enabled : Bool
deriving DecidableEq, Repr

/-- The page-tree data produced by the external `getPageTree` collaborator;
consumed opaquely by `showTree`. -/
structure PageTree where
  currentPage : String
  nodes : List String
deriving DecidableEq, Repr

/-- One run's worth of external-collaborator behaviour: for each collaborator
promise, the value or error it settles with.  `window = none` models a
headless context (`typeof window === "undefined"`); `some w` a viewport of
inner width `w`.  For the host/preference writes, `none` means the call
succeeds and `some e` that it rejects with `e`.  The preference read
`isTreeViewEnabled` returns the persisted `St.enabled` unless
`getEnabledErr` injects a rejection. -/
structure Env where
  config : Except Err TreeViewConfig
  window : Option Nat
  readAsset : String → Except Err String
  pageTree : Except Err PageTree
  customStyles : Except Err (Option String)
  envKind : Except Err String
  showPanelRes : Position → Option Err
  hidePanelRes : Position → Option Err
  setEnabledRes : Bool → Option Err
  getEnabledErr : Option Err

/-- The result of one lifecycle operation: the settled promise, the final
state, and the trace of host invocations it issued. -/
abbrev Outcome := Except Err Unit × St × List Event

/-- The nine asset paths read by the `Promise.all` batch in `showTree`
(`src/treeview.ts` lines 99-109), in source order. -/
def assetPaths : List String :=
  ["assets/sortable-tree/sortable-tree.css",
   "assets/sortable-tree/sortable-tree.js",
   "assets/treeview.css",
   "assets/treeview.js",
   "assets/icons/folder-minus.svg",
   "assets/icons/folder-plus.svg",
   "assets/icons/navigation-2.svg",
   "assets/icons/refresh-cw.svg",
   "assets/icons/x-circle.svg"]

/-- Joining a `Promise.all` of `asset.readAsset` calls: the batch resolves
with all contents, or rejects with the error of a failing read (the
leftmost, as a deterministic rendering of the first rejection). -/
def readAssets (env : Env) : List String → Except Err (List String)
  | [] => .ok []
  | p :: ps =>
    match env.readAsset p with
    | .error e => .error e
    | .ok c =>
      match readAssets env ps with
      | .error e => .error e
      | .ok cs => .ok (c :: cs)

/-- `hideTree` from `src/treeview.ts` lines 49-55: if `currentPosition` is
set, await `editor.hidePanel(currentPosition)`, clear `currentPosition`,
then await `setTreeViewEnabled(false)`; otherwise do nothing.  A failed
`hidePanel` leaves `currentPosition` set; a failed `setTreeViewEnabled`
happens after `currentPosition` was already cleared. -/
def hideTree (env : Env) (s : St) : Outcome :=
  match s.currentPosition with
  | none => (.ok (), s, [])
  | some pos =>
    match env.hidePanelRes pos with
    | some e => (.error e, s, [.hidePanel pos])
    | none =>
      let s1 : St := { s with currentPosition := none }
      match env.setEnabledRes false with
      | some e => (.error e, s1, [.hidePanel pos, .setEnabled false])
      | none => (.ok (), { s1 with enabled := false },
                 [.hidePanel pos, .setEnabled false])

/-- The guard at `src/treeview.ts` lines 82-87: if `currentPosition` is set
and differs from the freshly resolved `adaptivePosition`, run the full
`hideTree` first; otherwise fall through unchanged. -/
def showTreeHidePhase (env : Env) (s : St) (adaptivePosition : Position) :
    Outcome :=
  match s.currentPosition with
  | none => (.ok (), s, [])
  | some pos =>
    if adaptivePosition = pos then (.ok (), s, [])
    else hideTree env s

/-- `src/treeview.ts` lines 89-169 after the hide guard: await the
`Promise.all` asset batch, then `getPageTree(config)`, then
`getCustomStyles()`, assemble the payload (pure string construction, not
observable by the host), await `editor.showPanel(adaptivePosition, ...)`,
await `setTreeViewEnabled(true)`, and finally assign
`currentPosition = adaptivePosition`.  Each rejection propagates and stops
the sequence at that point. -/
def showTreeRest (env : Env) (s : St) (adaptivePosition : Position) :
    Outcome :=
  match readAssets env assetPaths with
  | .error e => (.error e, s, [.parReadAssets assetPaths])
  | .ok _assets =>
    match env.pageTree with
    | .error e => (.error e, s, [.parReadAssets assetPaths, .fetchPageTree])
    | .ok _tree =>
      match env.customStyles with
      | .error e =>
        (.error e, s,
         [.parReadAssets assetPaths, .fetchPageTree, .fetchCustomStyles])
      | .ok _styles =>
        match env.showPanelRes adaptivePosition with
        | some e =>
          (.error e, s,
           [.parReadAssets assetPaths, .fetchPageTree, .fetchCustomStyles,
            .showPanel adaptivePosition])
        | none =>
          match env.setEnabledRes true with
          | some e =>
            (.error e, s,
             [.parReadAssets assetPaths, .fetchPageTree, .fetchCustomStyles,
              .showPanel adaptivePosition, .setEnabled true])
          | none =>
            (.ok (),
             { currentPosition := some adaptivePosition, enabled := true },
             [.parReadAssets assetPaths, .fetchPageTree, .fetchCustomStyles,
              .showPanel adaptivePosition, .setEnabled true])

/-- `showTree` from `src/treeview.ts` lines 78-170: await `getPlugConfig()`,
resolve the adaptive position, run the hide guard, then the fetch/show/
persist sequence.  An error anywhere propagates with the state and trace
accumulated so far. -/
def showTree (env : Env) (s : St) : Outcome :=
  match env.config with
  | .error e => (.error e, s, [])
  | .ok config =>
    let adaptivePosition := getAdaptivePosition config env.window
    match showTreeHidePhase env s adaptivePosition with
    | (.error e, s1, tr1) => (.error e, s1, tr1)
    | (.ok _, s1, tr1) =>
      let (r, s2, tr2) := showTreeRest env s1 adaptivePosition
      (r, s2, tr1 ++ tr2)

/-- `toggleTree` from `src/treeview.ts` lines 37-44: await
`isTreeViewEnabled()`; if false, `showTree()`, else `hideTree()`. -/
def toggleTree (env : Env) (s : St) : Outcome :=
  match env.getEnabledErr with
  | some e => (.error e, s, [])
  | none => if !s.enabled then showTree env s else hideTree env s

/-- Modelled from the spec: `PLUG_DISPLAY_NAME` is exported by `config.ts`,
which is not part of the excerpt; the spec only requires it to be a
plugin-identifying prefix for the log message. -/
def PLUG_DISPLAY_NAME : String := "TreeView"

/-- The constant message `showTreeIfEnabled` passes to `console.error`
(`src/treeview.ts` line 71). -/
def showTreeIfEnabledLogMsg : String :=
  PLUG_DISPLAY_NAME ++ ": showTreeIfEnabled failed"

/-- The `try` block of `showTreeIfEnabled` (`src/treeview.ts` lines 61-69):
await `system.getEnv()`; return if it is `"server"`; otherwise await
`isTreeViewEnabled()` and, when true, `showTree()`. -/
def showTreeIfEnabledTry (env : Env) (s : St) : Outcome :=
  match env.envKind with
  | .error e => (.error e, s, [])
  | .ok kind =>
    if kind = "server" then (.ok (), s, [])
    else
      match env.getEnabledErr with
      | some e => (.error e, s, [])
      | none => if s.enabled then showTree env s else (.ok (), s, [])

/-- `showTreeIfEnabled` from `src/treeview.ts` lines 60-73: the `try` block
wrapped in a `catch` that logs the error via `console.error` with the
plugin-identifying message and swallows it. -/
def showTreeIfEnabled (env : Env) (s : St) : Outcome :=
  match showTreeIfEnabledTry env s with
  | (.error _, s1, tr1) =>
    (.ok (), s1, tr1 ++ [.logError showTreeIfEnabledLogMsg])
  | (.ok _, s1, tr1) => (.ok (), s1, tr1)

/-- Number of `editor.showPanel` invocations recorded in a trace. -/
def countShowPanel (tr : List Event) : Nat :=
  tr.countP fun ev =>
    match ev with
    | .showPanel _ => true
    | _ => false

/-- Number of `editor.hidePanel` invocations recorded in a trace. -/
def countHidePanel (tr : List Event) : Nat :=
  tr.countP fun ev =>
    match ev with
    | .hidePanel _ => true
    | _ => false

/-- A concrete configuration used to instantiate scenarios. -/
def cfgBase : TreeViewConfig :=
  { position := .right, autoMobileMode := false, mobileThreshold := 0,
    size := 300, dragAndDropEnabled := true }

/-- A concrete run in which every collaborator succeeds: resolution yields
`cfgBase.position = right`. -/
def envAllOk : Env where
  config := .ok cfgBase
  window := none
  readAsset := fun _ => .ok "content"
  pageTree := .ok { currentPage := "index", nodes := ["index", "journal"] }
  customStyles := .ok none
  envKind := .ok "client"
  showPanelRes := fun _ => none
  hidePanelRes := fun _ => none
  setEnabledRes := fun _ => none
  getEnabledErr := none

/-- As `envAllOk` but `getPageTree` rejects with `"boom"`. -/
def envPageTreeFail : Env := { envAllOk with pageTree := .error "boom" }

/-- As `envAllOk` but every `asset.readAsset` rejects with `"assetfail"`. -/
def envAssetFail : Env :=
  { envAllOk with readAsset := fun _ => .error "assetfail" }

/-- As `envAllOk` but `setTreeViewEnabled(true)` rejects with
`"persistfail"` while `setTreeViewEnabled(false)` still succeeds. -/
def envSetTrueFail : Env :=
  { envAllOk with
      setEnabledRes := fun b => if b then some "persistfail" else none }

/-- As `envAllOk` but `system.getEnv()` resolves to `"server"`. -/
def envServer : Env := { envAllOk with envKind := .ok "server" }

/-- As `envAllOk` but `system.getEnv()` rejects with `"envfail"`. -/
def envKindFail : Env := { envAllOk with envKind := .error "envfail" }

/-- The fetch/show/persist tail of `showTree` never invokes
`editor.hidePanel`, whatever the collaborator outcomes. -/
theorem countHidePanel_showTreeRest (env : Env) (s : St) (pos : Position) :
    countHidePanel (showTreeRest env s pos).2.2 = 0 := by
  unfold showTreeRest
  repeat' split
  all_goals rfl

/-- C1 counterexample: starting Shown at `left` with preference `true`,
against a configuration resolving to `right` and a `getPageTree` that
rejects with `"boom"`, `showTree` does reject with `"boom"` but first runs
the hide sequence, so afterwards `currentPosition` is cleared and the
persisted preference is `false`: neither remains unchanged from before the
call. -/
theorem showTree_pageTree_error_state_changed :
    showTree envPageTreeFail { currentPosition := some .left, enabled := true }
      = (.error "boom", { currentPosition := none, enabled := false },
         [.hidePanel .left, .setEnabled false, .parReadAssets assetPaths,
          .fetchPageTree])
    ∧ (none : Option Position) ≠ some Position.left
    ∧ false ≠ true := by
  refine ⟨rfl, ?_, ?_⟩ <;> decide

/-- C1 (amended): if `getPageTree` rejects with `e` during `showTree` —
the configuration read and the asset batch having succeeded — then
`showTree` rejects with that same `e`, no `showPanel` or `setEnabled(true)`
is ever issued, and provided the starting state did not trigger the initial
hide guard (`currentPosition` absent or already equal to the resolved
target), both `currentPosition` and the persisted preference are unchanged
from before the call. -/
theorem showTree_pageTree_error_preserves_state (env : Env) (s : St)
    (cfg : TreeViewConfig) (e : Err) (as : List String)
    (hc : env.config = .ok cfg)
    (hskip : s.currentPosition = none
      ∨ s.currentPosition = some (getAdaptivePosition cfg env.window))
    (ha : readAssets env assetPaths = .ok as)
    (ht : env.pageTree = .error e) :
    showTree env s = (.error e, s, [.parReadAssets assetPaths, .fetchPageTree]) := by
  have hphase : showTreeHidePhase env s (getAdaptivePosition cfg env.window)
      = (.ok (), s, []) := by
    rcases hskip with h | h <;> simp [showTreeHidePhase, h]
  simp [showTree, hc, hphase, showTreeRest, ha, ht]

/-- Witness for the amended C1 at a concrete starting state and run. -/
theorem showTree_pageTree_error_preserves_state_witness :
    showTree envPageTreeFail { currentPosition := none, enabled := true }
      = (.error "boom", { currentPosition := none, enabled := true },
         [.parReadAssets assetPaths, .fetchPageTree]) :=
  showTree_pageTree_error_preserves_state envPageTreeFail
    { currentPosition := none, enabled := true } cfgBase "boom"
    ["content", "content", "content", "content", "content", "content",
     "content", "content", "content"]
    rfl (Or.inl rfl) rfl rfl

/-- C2 counterexample: the fetches inside `showTree` are not one concurrent
batch.  Starting Hidden, (i) when every `readAsset` rejects, the trace is
just the asset batch — the page-tree fetch is never issued, although the
page-tree collaborator would have succeeded; (ii) when `getPageTree`
rejects, the trace is the asset batch followed by the page-tree fetch — the
custom-style fetch is never issued, although the custom-style collaborator
is identical to the one in the all-success run, where it is issued.  So the
page-tree and custom-style fetches are each ordered after (conditional on)
the preceding fetch's outcome, refuting "a single fan-out/fan-in batch with
no ordering dependency among them". -/
theorem showTree_fetches_not_one_batch :
    (showTree envAssetFail { currentPosition := none, enabled := false }).2.2
      = [.parReadAssets assetPaths]
    ∧ Event.fetchPageTree
        ∉ (showTree envAssetFail { currentPosition := none, enabled := false }).2.2
    ∧ envAssetFail.pageTree = envAllOk.pageTree
    ∧ (showTree envPageTreeFail { currentPosition := none, enabled := false }).2.2
      = [.parReadAssets assetPaths, .fetchPageTree]
    ∧ Event.fetchCustomStyles
        ∉ (showTree envPageTreeFail { currentPosition := none, enabled := false }).2.2
    ∧ envPageTreeFail.customStyles = envAllOk.customStyles
    ∧ Event.fetchCustomStyles
        ∈ (showTree envAllOk { currentPosition := none, enabled := false }).2.2 := by
  refine ⟨rfl, by decide, rfl, rfl, by decide, rfl, by decide⟩

/-- C2 (amended): inside `showTree`, for every starting state, only the
nine static asset reads form a concurrent fan-out/fan-in batch; the
page-tree fetch is issued only after that batch has resolved, the
custom-style fetch only after the page-tree fetch has resolved, and a
rejection at any stage aborts `showTree` before any later fetch is issued;
when all fetches succeed, all results are joined before the panel is
shown.  The initial hide guard is an arbitrary prefix of the run: if it
fails, `showTree` aborts before any fetch is issued at all, and if it
completes (firing or not), the fetch sequence follows it in the stated
order. -/
theorem showTree_fetch_order (env : Env) (s : St) (cfg : TreeViewConfig)
    (hc : env.config = .ok cfg) :
    (∀ (e : Err) (s1 : St) (tr1 : List Event),
      showTreeHidePhase env s (getAdaptivePosition cfg env.window)
        = (.error e, s1, tr1) →
      showTree env s = (.error e, s1, tr1))
    ∧ (∀ (s1 : St) (tr1 : List Event),
        showTreeHidePhase env s (getAdaptivePosition cfg env.window)
          = (.ok (), s1, tr1) →
        (∀ e : Err, readAssets env assetPaths = .error e →
          showTree env s = (.error e, s1, tr1 ++ [.parReadAssets assetPaths]))
        ∧ (∀ (as : List String) (e : Err),
            readAssets env assetPaths = .ok as → env.pageTree = .error e →
            showTree env s
              = (.error e, s1,
                 tr1 ++ [.parReadAssets assetPaths, .fetchPageTree]))
        ∧ (∀ (as : List String) (t : PageTree) (e : Err),
            readAssets env assetPaths = .ok as → env.pageTree = .ok t →
            env.customStyles = .error e →
            showTree env s
              = (.error e, s1,
                 tr1 ++ [.parReadAssets assetPaths, .fetchPageTree,
                         .fetchCustomStyles]))
        ∧ (∀ (as : List String) (t : PageTree) (cs : Option String),
            readAssets env assetPaths = .ok as → env.pageTree = .ok t →
            env.customStyles = .ok cs →
            env.showPanelRes (getAdaptivePosition cfg env.window) = none →
            env.setEnabledRes true = none →
            showTree env s
              = (.ok (),
                 { currentPosition := some (getAdaptivePosition cfg env.window),
                   enabled := true },
                 tr1 ++ [.parReadAssets assetPaths, .fetchPageTree,
                         .fetchCustomStyles,
                         .showPanel (getAdaptivePosition cfg env.window),
                         .setEnabled true]))) := by
  constructor
  · intro e s1 tr1 hphase
    simp [showTree, hc, hphase]
  · intro s1 tr1 hphase
    refine ⟨?_, ?_, ?_, ?_⟩
    · intro e ha
      simp [showTree, hc, hphase, showTreeRest, ha]
    · intro as e ha ht
      simp [showTree, hc, hphase, showTreeRest, ha, ht]
    · intro as t e ha ht hcs
      simp [showTree, hc, hphase, showTreeRest, ha, ht, hcs]
    · intro as t cs ha ht hcs hsp hse
      simp [showTree, hc, hphase, showTreeRest, ha, ht, hcs, hsp, hse]

/-- Witness for the amended C2, exercising both a run in which the hide
guard does not fire (all-success run from Hidden: asset batch, then the
page-tree fetch, then the custom-style fetch, then the panel show) and a
guard-firing run (Shown at `left`, target `right`, `getPageTree` rejecting:
the hide sequence precedes the asset batch, and the custom-style fetch is
never issued). -/
theorem showTree_fetch_order_witness :
    showTree envAllOk { currentPosition := none, enabled := false }
      = (.ok (),
         { currentPosition := some Position.right, enabled := true },
         [] ++ [.parReadAssets assetPaths, .fetchPageTree, .fetchCustomStyles,
                .showPanel Position.right, .setEnabled true])
    ∧ showTree envPageTreeFail
        { currentPosition := some Position.left, enabled := true }
      = (.error "boom", { currentPosition := none, enabled := false },
         [.hidePanel Position.left, .setEnabled false]
           ++ [.parReadAssets assetPaths, .fetchPageTree]) :=
  ⟨((showTree_fetch_order envAllOk { currentPosition := none, enabled := false }
        cfgBase rfl).2 { currentPosition := none, enabled := false } []
        rfl).2.2.2
      ["content", "content", "content", "content", "content", "content",
       "content", "content", "content"]
      { currentPage := "index", nodes := ["index", "journal"] } none
      rfl rfl rfl rfl rfl,
   ((showTree_fetch_order envPageTreeFail
        { currentPosition := some Position.left, enabled := true }
        cfgBase rfl).2 { currentPosition := none, enabled := false }
        [.hidePanel Position.left, .setEnabled false] rfl).2.1
      ["content", "content", "content", "content", "content", "content",
       "content", "content", "content"] "boom"
      rfl rfl⟩

/-- C3: with the tree Shown at `p`, if the freshly resolved target equals
`p` then `showTree` never invokes `hidePanel` (whatever the downstream
collaborator outcomes); if the resolved target differs from `p` then, in a
run where the collaborators succeed, the full hide sequence for `p`
(`hidePanel p` then the preference write `false`) completes first and the
panel is shown at the new target strictly afterwards. -/
theorem showTree_reentrant (env : Env) (s : St) (cfg : TreeViewConfig)
    (p : Position)
    (hc : env.config = .ok cfg) (hp : s.currentPosition = some p) :
    (getAdaptivePosition cfg env.window = p →
      countHidePanel (showTree env s).2.2 = 0)
    ∧ (getAdaptivePosition cfg env.window ≠ p →
       env.hidePanelRes p = none → env.setEnabledRes false = none →
       ∀ (as : List String) (t : PageTree) (cs : Option String),
         readAssets env assetPaths = .ok as → env.pageTree = .ok t →
         env.customStyles = .ok cs →
         env.showPanelRes (getAdaptivePosition cfg env.window) = none →
         env.setEnabledRes true = none →
         showTree env s
           = (.ok (),
              { currentPosition := some (getAdaptivePosition cfg env.window),
                enabled := true },
              [.hidePanel p, .setEnabled false,
               .parReadAssets assetPaths, .fetchPageTree, .fetchCustomStyles,
               .showPanel (getAdaptivePosition cfg env.window),
               .setEnabled true])) := by
  constructor
  · intro heq
    have hphase : showTreeHidePhase env s (getAdaptivePosition cfg env.window)
        = (.ok (), s, []) := by
      simp [showTreeHidePhase, hp, heq]
    rcases hrest : showTreeRest env s (getAdaptivePosition cfg env.window)
      with ⟨r, s2, tr2⟩
    have h0 := countHidePanel_showTreeRest env s
      (getAdaptivePosition cfg env.window)
    rw [hrest] at h0
    simp [showTree, hc, hphase, hrest]
    exact h0
  · intro hne hh hsf as t cs ha ht hcs hsp hse
    have hphase : showTreeHidePhase env s (getAdaptivePosition cfg env.window)
        = (.ok (), { currentPosition := none, enabled := false },
           [.hidePanel p, .setEnabled false]) := by
      simp only [showTreeHidePhase, hp]
      rw [if_neg hne]
      simp [hideTree, hp, hh, hsf]
    simp [showTree, hc, hphase, showTreeRest, ha, ht, hcs, hsp, hse]

/-- Witness for C3: a Shown-at-`right` state whose resolved target is again
`right` produces no `hidePanel` invocation; the same environment with the
tree Shown at `left` (so the target `right` differs) runs the hide
sequence first and then shows at `right`. -/
theorem showTree_reentrant_witness :
    countHidePanel
      (showTree envAllOk
        { currentPosition := some Position.right, enabled := true }).2.2 = 0
    ∧ showTree envAllOk { currentPosition := some Position.left, enabled := true }
        = (.ok (),
           { currentPosition := some Position.right, enabled := true },
           [.hidePanel Position.left, .setEnabled false,
            .parReadAssets assetPaths, .fetchPageTree, .fetchCustomStyles,
            .showPanel Position.right, .setEnabled true]) :=
  ⟨(showTree_reentrant envAllOk
      { currentPosition := some Position.right, enabled := true }
      cfgBase Position.right rfl rfl).1 rfl,
   (showTree_reentrant envAllOk
      { currentPosition := some Position.left, enabled := true }
      cfgBase Position.left rfl rfl).2 (by decide) rfl rfl
     ["content", "content", "content", "content", "content", "content",
      "content", "content", "content"]
     { currentPage := "index", nodes := ["index", "journal"] } none
     rfl rfl rfl rfl rfl⟩

/-- C6: `hideTree` from Hidden is a no-op — no `hidePanel` invocation, no
state or preference change — and, from Shown at `p` with the host hide and
the preference write succeeding, a first `hideTree` issues exactly one
`hidePanel` and lands in Hidden, while a second `hideTree` from the
resulting state issues nothing and stays Hidden, so the two consecutive
calls issue exactly one `hidePanel` in total. -/
theorem hideTree_idempotent (env : Env) (s : St) :
    (s.currentPosition = none → hideTree env s = (.ok (), s, []))
    ∧ (∀ p : Position, s.currentPosition = some p →
        env.hidePanelRes p = none → env.setEnabledRes false = none →
        hideTree env s
          = (.ok (), { currentPosition := none, enabled := false },
             [.hidePanel p, .setEnabled false])
        ∧ hideTree env { currentPosition := none, enabled := false }
          = (.ok (), { currentPosition := none, enabled := false }, [])
        ∧ countHidePanel
            ((hideTree env s).2.2
              ++ (hideTree env { currentPosition := none, enabled := false }).2.2)
          = 1) := by
  constructor
  · intro h
    simp [hideTree, h]
  · intro p hp hh hsf
    have h1 : hideTree env s
        = (.ok (), { currentPosition := none, enabled := false },
           [.hidePanel p, .setEnabled false]) := by
      simp [hideTree, hp, hh, hsf]
    have h2 : hideTree env { currentPosition := none, enabled := false }
        = (.ok (), { currentPosition := none, enabled := false }, []) := by
      simp [hideTree]
    refine ⟨h1, h2, ?_⟩
    rw [h1, h2]
    rfl

/-- Witness for C6 at the Hidden state and at a Shown-at-`right` state in
the all-success run. -/
theorem hideTree_idempotent_witness :
    hideTree envAllOk { currentPosition := none, enabled := false }
      = (.ok (), { currentPosition := none, enabled := false }, [])
    ∧ hideTree envAllOk { currentPosition := some Position.right, enabled := true }
      = (.ok (), { currentPosition := none, enabled := false },
         [.hidePanel Position.right, .setEnabled false]) :=
  ⟨(hideTree_idempotent envAllOk
      { currentPosition := none, enabled := false }).1 rfl,
   ((hideTree_idempotent envAllOk
      { currentPosition := some Position.right, enabled := true }).2
      Position.right rfl rfl rfl).1⟩

/-- C5: in a run where every collaborator succeeds, starting from
preference `false` and Hidden, `toggleTree` issues exactly one `showPanel`
(and no `hidePanel`) and leaves the preference `true`; a second
`toggleTree` from the resulting state issues exactly one `hidePanel` (and
no `showPanel`) and leaves the preference `false`. -/
theorem toggleTree_twice_scenario (env : Env) (cfg : TreeViewConfig)
    (as : List String) (t : PageTree) (cs : Option String)
    (hg : env.getEnabledErr = none)
    (hc : env.config = .ok cfg)
    (ha : readAssets env assetPaths = .ok as) (ht : env.pageTree = .ok t)
    (hcs : env.customStyles = .ok cs)
    (hsp : env.showPanelRes (getAdaptivePosition cfg env.window) = none)
    (hseT : env.setEnabledRes true = none)
    (hh : env.hidePanelRes (getAdaptivePosition cfg env.window) = none)
    (hseF : env.setEnabledRes false = none) :
    toggleTree env { currentPosition := none, enabled := false }
      = (.ok (),
         { currentPosition := some (getAdaptivePosition cfg env.window),
           enabled := true },
         [.parReadAssets assetPaths, .fetchPageTree, .fetchCustomStyles,
          .showPanel (getAdaptivePosition cfg env.window), .setEnabled true])
    ∧ countShowPanel
        (toggleTree env { currentPosition := none, enabled := false }).2.2 = 1
    ∧ countHidePanel
        (toggleTree env { currentPosition := none, enabled := false }).2.2 = 0
    ∧ toggleTree env
        { currentPosition := some (getAdaptivePosition cfg env.window),
          enabled := true }
      = (.ok (), { currentPosition := none, enabled := false },
         [.hidePanel (getAdaptivePosition cfg env.window), .setEnabled false])
    ∧ countHidePanel
        (toggleTree env
          { currentPosition := some (getAdaptivePosition cfg env.window),
            enabled := true }).2.2 = 1
    ∧ countShowPanel
        (toggleTree env
          { currentPosition := some (getAdaptivePosition cfg env.window),
            enabled := true }).2.2 = 0 := by
  have h1 : toggleTree env { currentPosition := none, enabled := false }
      = (.ok (),
         { currentPosition := some (getAdaptivePosition cfg env.window),
           enabled := true },
         [.parReadAssets assetPaths, .fetchPageTree, .fetchCustomStyles,
          .showPanel (getAdaptivePosition cfg env.window), .setEnabled true]) := by
    simp [toggleTree, hg, showTree, hc, showTreeHidePhase, showTreeRest,
      ha, ht, hcs, hsp, hseT]
  have h2 : toggleTree env
      { currentPosition := some (getAdaptivePosition cfg env.window),
        enabled := true }
      = (.ok (), { currentPosition := none, enabled := false },
         [.hidePanel (getAdaptivePosition cfg env.window), .setEnabled false]) := by
    simp [toggleTree, hg, hideTree, hh, hseF]
  refine ⟨h1, ?_, ?_, h2, ?_, ?_⟩ <;> first
    | (rw [h1]; rfl)
    | (rw [h2]; rfl)

/-- Witness for C5 in the concrete all-success run, where the resolved
position is `right`. -/
theorem toggleTree_twice_scenario_witness :
    toggleTree envAllOk { currentPosition := none, enabled := false }
      = (.ok (), { currentPosition := some Position.right, enabled := true },
         [.parReadAssets assetPaths, .fetchPageTree, .fetchCustomStyles,
          .showPanel Position.right, .setEnabled true])
    ∧ toggleTree envAllOk
        { currentPosition := some Position.right, enabled := true }
      = (.ok (), { currentPosition := none, enabled := false },
         [.hidePanel Position.right, .setEnabled false]) :=
  ⟨(toggleTree_twice_scenario envAllOk cfgBase
      ["content", "content", "content", "content", "content", "content",
       "content", "content", "content"]
      { currentPage := "index", nodes := ["index", "journal"] } none
      rfl rfl rfl rfl rfl rfl rfl rfl rfl).1,
   (toggleTree_twice_scenario envAllOk cfgBase
      ["content", "content", "content", "content", "content", "content",
       "content", "content", "content"]
      { currentPage := "index", nodes := ["index", "journal"] } none
      rfl rfl rfl rfl rfl rfl rfl rfl rfl).2.2.2.1⟩

/-- C7: `showTreeIfEnabled` always settles successfully — any rejection
from the environment query, the preference read, or `showTree` is caught,
logged once via `console.error` with the plugin-identifying message, and
swallowed; when the environment resolves to `"server"` it returns with the
state unchanged, an empty invocation trace, and in particular zero
`showPanel` invocations, whatever the persisted preference. -/
theorem showTreeIfEnabled_never_raises (env : Env) (s : St) :
    (showTreeIfEnabled env s).1 = .ok ()
    ∧ (env.envKind = .ok "server" →
        showTreeIfEnabled env s = (.ok (), s, [])
        ∧ countShowPanel (showTreeIfEnabled env s).2.2 = 0)
    ∧ (∀ (e : Err) (s1 : St) (tr1 : List Event),
        showTreeIfEnabledTry env s = (.error e, s1, tr1) →
        showTreeIfEnabled env s
          = (.ok (), s1, tr1 ++ [.logError showTreeIfEnabledLogMsg])
        ∧ ∃ rest : String,
            showTreeIfEnabledLogMsg = PLUG_DISPLAY_NAME ++ rest) := by
  refine ⟨?_, ?_, ?_⟩
  · rcases h : showTreeIfEnabledTry env s with ⟨r, s1, tr1⟩
    cases r <;> simp [showTreeIfEnabled, h]
  · intro hk
    have h : showTreeIfEnabledTry env s = (.ok (), s, []) := by
      simp [showTreeIfEnabledTry, hk]
    have h2 : showTreeIfEnabled env s = (.ok (), s, []) := by
      simp [showTreeIfEnabled, h]
    exact ⟨h2, by rw [h2]; rfl⟩
  · intro e s1 tr1 h
    exact ⟨by simp [showTreeIfEnabled, h], ": showTreeIfEnabled failed", rfl⟩

/-- Witness for C7: the `"server"` environment with preference `true`
produces no invocations at all, and a rejecting environment query is
swallowed into a successful result that only logs. -/
theorem showTreeIfEnabled_never_raises_witness :
    showTreeIfEnabled envServer { currentPosition := none, enabled := true }
      = (.ok (), { currentPosition := none, enabled := true }, [])
    ∧ showTreeIfEnabled envKindFail { currentPosition := none, enabled := true }
      = (.ok (), { currentPosition := none, enabled := true },
         [] ++ [.logError showTreeIfEnabledLogMsg]) :=
  ⟨((showTreeIfEnabled_never_raises envServer
      { currentPosition := none, enabled := true }).2.1 rfl).1,
   ((showTreeIfEnabled_never_raises envKindFail
      { currentPosition := none, enabled := true }).2.2 "envfail"
      { currentPosition := none, enabled := true } [] rfl).1⟩

/-- C9: when the persisted preference is `true` but `currentPosition` is
absent, `toggleTree` dispatches to `hideTree`, which is a no-op: no
`showPanel`, no `hidePanel`, state and preference untouched — so the
preference stays `true`, the divergence is not reconciled, and a repeated
`toggleTree` from the (unchanged) resulting state is the same no-op. -/
theorem toggleTree_enabled_no_position_noop (env : Env) (s : St)
    (he : s.enabled = true) (hp : s.currentPosition = none)
    (hg : env.getEnabledErr = none) :
    toggleTree env s = (.ok (), s, [])
    ∧ countShowPanel (toggleTree env s).2.2 = 0
    ∧ countHidePanel (toggleTree env s).2.2 = 0
    ∧ (toggleTree env s).2.1.enabled = true
    ∧ toggleTree env (toggleTree env s).2.1 = (.ok (), s, []) := by
  have h : toggleTree env s = (.ok (), s, []) := by
    simp [toggleTree, hg, he, hideTree, hp]
  refine ⟨h, ?_, ?_, ?_, ?_⟩ <;> rw [h]
  · rfl
  · rfl
  · exact he
  · exact h

/-- Witness for C9 at the concrete state with preference `true` and no
recorded position. -/
theorem toggleTree_enabled_no_position_noop_witness :
    toggleTree envAllOk { currentPosition := none, enabled := true }
      = (.ok (), { currentPosition := none, enabled := true }, []) :=
  (toggleTree_enabled_no_position_noop envAllOk
    { currentPosition := none, enabled := true } rfl rfl rfl).1

/-- C10: `currentPosition` is written only after both `showPanel` and
`setTreeViewEnabled(true)` have succeeded: in a run that reaches
`showPanel` successfully but whose `setTreeViewEnabled(true)` rejects with
`e`, `showTree` rejects with `e`, the trace ends with the issued
`showPanel` and `setEnabled true` invocations, and the final state is
exactly the pre-assignment state `s1` left by the hide guard — in
particular `currentPosition` retains its pre-assignment value and does not
record the newly shown panel. -/
theorem showTree_setEnabled_failure_keeps_position (env : Env) (s : St)
    (cfg : TreeViewConfig) (e : Err) (as : List String) (t : PageTree)
    (cs : Option String) (s1 : St) (tr1 : List Event)
    (hc : env.config = .ok cfg)
    (hphase : showTreeHidePhase env s (getAdaptivePosition cfg env.window)
        = (.ok (), s1, tr1))
    (ha : readAssets env assetPaths = .ok as) (ht : env.pageTree = .ok t)
    (hcs : env.customStyles = .ok cs)
    (hsp : env.showPanelRes (getAdaptivePosition cfg env.window) = none)
    (hse : env.setEnabledRes true = some e) :
    showTree env s
      = (.error e, s1,
         tr1 ++ [.parReadAssets assetPaths, .fetchPageTree, .fetchCustomStyles,
                 .showPanel (getAdaptivePosition cfg env.window),
                 .setEnabled true])
    ∧ (showTree env s).2.1.currentPosition = s1.currentPosition := by
  have h : showTree env s
      = (.error e, s1,
         tr1 ++ [.parReadAssets assetPaths, .fetchPageTree, .fetchCustomStyles,
                 .showPanel (getAdaptivePosition cfg env.window),
                 .setEnabled true]) := by
    simp [showTree, hc, hphase, showTreeRest, ha, ht, hcs, hsp, hse]
  exact ⟨h, by rw [h]⟩

/-- Witness for C10: from Hidden, with `showPanel` succeeding and the
preference write rejecting with `"persistfail"`, `showTree` rejects and
`currentPosition` stays `none`. -/
theorem showTree_setEnabled_failure_keeps_position_witness :
    showTree envSetTrueFail { currentPosition := none, enabled := false }
      = (.error "persistfail", { currentPosition := none, enabled := false },
         [] ++ [.parReadAssets assetPaths, .fetchPageTree, .fetchCustomStyles,
                .showPanel Position.right, .setEnabled true]) :=
  (showTree_setEnabled_failure_keeps_position envSetTrueFail
    { currentPosition := none, enabled := false } cfgBase "persistfail"
    ["content", "content", "content", "content", "content", "content",
     "content", "content", "content"]
    { currentPage := "index", nodes := ["index", "journal"] } none
    { currentPosition := none, enabled := false } []
    rfl rfl rfl rfl rfl rfl rfl).1
